import Mathlib

/-!
# RapidoDB — verification of the RQL core against its specification

Shallow embedding of the RapidoDB query-processing core:
the stored `Item` with its TTL semantics (`src/db/item.go`), the TTL
key/value `Store` and the security wrapper (modelled from the spec, as
the `store` and `security` packages are not part of the given sources),
the RQL lexer/parser (modelled from the spec grammar, as the `rql`
lexer/parser sources are not given — only their test is), and the two
versions of the RQL driver (`src/rql/driver.go` and the earlier driver
in `src/unnamed/part_001`).

Time is modelled as a natural number of nanoseconds since the Unix
epoch; Go `time.Duration` is a signed 64-bit count of nanoseconds,
modelled as `Int`; Go `int64` values are modelled as `Int` (the
magnitudes in play are far below 2^63) except where wrap-around is the
point, in which case the modulus is explicit.
-/

/-- A Go `interface{}` value as it occurs in this system: the data store
only ever holds the string values the driver writes, and the driver's
`get` places a literal `nil` in a response slot for a missing key. -/
inductive GoValue where
  | str (s : String)
  | nil
  deriving DecidableEq, Repr

/-- Modelled from the spec: the "never expires" sentinel duration
(`store.NeverExpire`); its defining property used by the code under
`src/db/item.go` is only equality/disequality with itself, so its
concrete numeric value is immaterial to every claim below. -/
def NeverExpire : Int := 0

/-- The stored unit, from `src/db/item.go`: an expiry instant
(`expireAt`, a Go `int64`; the sentinel `NeverExpire` means "never")
and an opaque payload. -/
structure Item where
  expireAt : Int
  data : GoValue
  deriving DecidableEq, Repr

/-- Function `newItem` from `src/db/item.go`: if the requested duration is not
the sentinel, the expiry instant is `time.Now().Add(expireIn).UnixNano()`
— the wall clock in NANOSECONDS plus the duration in nanoseconds.
`now` is the wall clock at the moment of the call, in nanoseconds. -/
def newItem (data : GoValue) (expireIn : Int) (now : Nat) : Item :=
  if expireIn ≠ NeverExpire then
    { expireAt := (now : Int) + expireIn, data := data }
  else
    { expireAt := NeverExpire, data := data }

/-- Method `Item.isExpired` from `src/db/item.go`: never-expire items are never
expired; otherwise the stored expiry instant is compared against
`time.Now().Unix()` — the wall clock in SECONDS (`now` nanoseconds
divided by 10^9). -/
def Item.isExpired (item : Item) (now : Nat) : Bool :=
  if item.expireAt = NeverExpire then
    false
  else
    decide (item.expireAt < ((now / 1000000000 : Nat) : Int))

/-- Modelled from the spec (§3, §4.3): the `store` package is not part
of the given sources. A `Store` maps string keys to items and carries a
configured default expiry. -/
structure Store where
  items : String → Option Item
  defaultExpiry : Int

/-- Modelled from the spec (§4.3): `set` inserts or replaces the item
for `key`, building it with `newItem` (the item semantics from
`src/db/item.go`). -/
def Store.set (s : Store) (key : String) (value : GoValue) (ttl : Int) (now : Nat) : Store :=
  { s with items := fun k => if k = key then some (newItem value ttl now) else s.items k }

/-- Modelled from the spec (§4.3): `get` returns the live value when the
key maps to a non-expired item, otherwise reports not-found (lazy
expiration). Returns `some v` for "found with value v", `none` for
"found = false". -/
def Store.get (s : Store) (key : String) (now : Nat) : Option GoValue :=
  match s.items key with
  | some it => if it.isExpired now then none else some it.data
  | none => none

/-- Modelled from the spec (§4.3): `delete` removes the mapping for
`key` unconditionally. -/
def Store.delete (s : Store) (key : String) : Store :=
  { s with items := fun k => if k = key then none else s.items k }

/-- A store with no items, used to build concrete states. -/
def Store.empty : Store :=
  { items := fun _ => none, defaultExpiry := NeverExpire }

/-- Modelled from the spec (§3, §4.4): the `security` package is not
part of the given sources. A session composes the shared data store, a
credential check over the registered-user store (abstracted as a
predicate on username/password), and the session's own mutable
"authenticated" flag. -/
structure SecureDB where
  store : Store
  checkCred : String → String → Bool
  authenticated : Bool

/-- Modelled from the spec (§4.4): on good credentials set the
session's flag and return true; otherwise leave the session untouched
and return false. Returns the outcome and the updated session. -/
def SecureDB.Authenticate (db : SecureDB) (username password : String) : Bool × SecureDB :=
  if db.checkCred username password then
    (true, { db with authenticated := true })
  else
    (false, db)

/-- Modelled from the spec (§4.4): `Set` delegates to the data store
(data mutation is not gated behind authentication). -/
def SecureDB.Set (db : SecureDB) (key : String) (value : GoValue) (ttl : Int) (now : Nat) :
    SecureDB :=
  { db with store := db.store.set key value ttl now }

/-- Modelled from the spec (§4.4): `Get` delegates to the data store. -/
def SecureDB.Get (db : SecureDB) (key : String) (now : Nat) : Option GoValue :=
  db.store.get key now

/-!
## The RQL statement model

The `Statement`/`Ast` shape is fixed by the parser test
(`src/unnamed/part_000`): tagged variants `Set{key, val, exp}`,
`Get{keys}`, `Delete{keys}`, `Auth{username, password}`, with `exp`
defaulting to the Go zero value `0` when no TTL is written; the spec
(§3, §9) prescribes the closed tagged-variant form used here.
-/

/-- One RQL statement (tagged variant, spec §3; field shapes from the
parser test in `src/unnamed/part_000`). -/
inductive Statement where
  | set (key val : String) (exp : Nat)
  | get (keys : List String)
  | del (keys : List String)
  | auth (username password : String)
  deriving DecidableEq, Repr

/-- The AST: an ordered sequence of statements, source order. -/
structure Ast where
  Statements : List Statement
  deriving DecidableEq, Repr

/-!
## Lexer and parser, modelled from the spec

The `rql` lexer/parser sources are not among the given files (only
their test, `src/unnamed/part_000`, is), so both are modelled from the
spec §4.1–§4.2 and checked against the test's expected ASTs.
-/

/-- A lexical token (spec §3): keyword, identifier / bare value, quoted
string literal, number (literal text kept verbatim, since a number in
value position is stored as its text), or the `;` terminator.
End-of-input is the end of the token list. -/
inductive Token where
  | keyword (s : String)
  | ident (s : String)
  | strLit (s : String)
  | number (lit : String)
  | term
  deriving DecidableEq, Repr

/-- Whitespace separates tokens and is discarded (spec §4.1). -/
def isWS (c : Char) : Bool :=
  c = ' ' || c = '\n' || c = '\t' || c = '\r'

/-- A bare-token character: non-whitespace, non-quote, non-`;`. -/
def isBareChar (c : Char) : Bool :=
  !isWS c && c ≠ '"' && c ≠ ';'

def isDigitChar (c : Char) : Bool :=
  48 ≤ c.toNat && c.toNat ≤ 57

/-- Classify a maximal bare run (spec §4.1): the exact uppercase words
`SET`/`GET`/`DEL`/`AUTH` are keywords; an all-digit run is a number;
anything else is an identifier / bare value. -/
def classifyBare (run : List Char) : Token :=
  let s : String := ⟨run⟩
  if s = "SET" || s = "GET" || s = "DEL" || s = "AUTH" then
    Token.keyword s
  else if run.length > 0 && run.all isDigitChar then
    Token.number s
  else
    Token.ident s

/-- Modelled from the spec (§4.1): one lexer step over the remaining
characters, with fuel for termination (each step consumes at least one
character, so fuel = input length suffices). Fails only on an
unterminated quoted literal. -/
def lexAux : Nat → List Char → Except String (List Token)
  | 0, _ => Except.error "lexer out of fuel"
  | _ + 1, [] => Except.ok []
  | fuel + 1, c :: cs =>
    if isWS c then
      lexAux fuel cs
    else if c = ';' then
      (lexAux fuel cs).map (Token.term :: ·)
    else if c = '"' then
      let body := cs.takeWhile (fun d => d ≠ '"')
      match cs.dropWhile (fun d => d ≠ '"') with
      | _ :: rest => (lexAux fuel rest).map (Token.strLit ⟨body⟩ :: ·)
      | [] => Except.error "unterminated string literal"
    else
      let run := (c :: cs).takeWhile isBareChar
      (lexAux fuel ((c :: cs).dropWhile isBareChar)).map (classifyBare run :: ·)

/-- Modelled from the spec (§4.1): the lexer, a pure function of the
source text. -/
def lex (src : String) : Except String (List Token) :=
  lexAux (src.data.length + 1) src.data

/-- Numeric value of a digit run (the TTL for `SET`). -/
def digitsToNat (s : String) : Nat :=
  s.data.foldl (fun a c => a * 10 + (c.toNat - 48)) 0

/-- Modelled from the spec (§4.2): a value is a string literal, an
identifier, or a number, its literal text preserved verbatim; a keyword
or terminator in value position is a `ParseError`. -/
def parseValue : List Token → Except String (String × List Token)
  | Token.strLit s :: rest => Except.ok (s, rest)
  | Token.ident s :: rest => Except.ok (s, rest)
  | Token.number lit :: rest => Except.ok (lit, rest)
  | _ => Except.error "expected a value"

/-- Modelled from the spec (§4.2): `GET`/`DEL` accumulate identifiers
greedily until a terminator or end-of-input. -/
def parseKeys : List Token → List String × List Token
  | Token.ident s :: rest =>
    let (keys, rest2) := parseKeys rest
    (s :: keys, rest2)
  | toks => ([], toks)

/-- Modelled from the spec (§4.2): parse one statement from the token
stream, returning it with the unconsumed remainder. -/
def parseStatement : List Token → Except String (Statement × List Token)
  | Token.keyword "SET" :: rest =>
    match rest with
    | Token.ident key :: rest2 =>
      match parseValue rest2 with
      | Except.ok (val, Token.number lit :: rest3) =>
        Except.ok (Statement.set key val (digitsToNat lit), rest3)
      | Except.ok (val, rest3) => Except.ok (Statement.set key val 0, rest3)
      | Except.error e => Except.error e
    | _ => Except.error "expected a key after SET"
  | Token.keyword "GET" :: rest =>
    match parseKeys rest with
    | ([], _) => Except.error "expected at least one key after GET"
    | (keys, rest2) => Except.ok (Statement.get keys, rest2)
  | Token.keyword "DEL" :: rest =>
    match parseKeys rest with
    | ([], _) => Except.error "expected at least one key after DEL"
    | (keys, rest2) => Except.ok (Statement.del keys, rest2)
  | Token.keyword "AUTH" :: rest =>
    match rest with
    | Token.ident username :: rest2 =>
      match parseValue rest2 with
      | Except.ok (password, rest3) => Except.ok (Statement.auth username password, rest3)
      | Except.error e => Except.error e
    | _ => Except.error "expected a username after AUTH"
  | _ => Except.error "expected a statement keyword"

/-- Modelled from the spec (§4.2): the statement sequence continues
until end-of-input; a trailing terminator is optional on the final
statement; an empty token stream yields the empty sequence, not an
error. Fuel decreases once per statement. -/
def parseProgram : Nat → List Token → Except String (List Statement)
  | 0, _ => Except.error "parser out of fuel"
  | _ + 1, [] => Except.ok []
  | fuel + 1, toks =>
    match parseStatement toks with
    | Except.error e => Except.error e
    | Except.ok (stmt, rest) =>
      match rest with
      | [] => Except.ok [stmt]
      | Token.term :: rest2 => (parseProgram fuel rest2).map (stmt :: ·)
      | _ => Except.error "expected a terminator between statements"

/-- Modelled from the spec (§4.2): `Parse` runs the lexer then the
parser, yielding the AST only on full success. -/
def Parse (src : String) : Except String Ast :=
  match lex src with
  | Except.error e => Except.error e
  | Except.ok toks =>
    match parseProgram (toks.length + 1) toks with
    | Except.error e => Except.error e
    | Except.ok stmts => Except.ok { Statements := stmts }

/-!
## The RQL driver (`src/rql/driver.go`) and the earlier driver
(`src/unnamed/part_001`)

The driver never receives a clock from its caller; the store reads the
wall clock itself. All driver functions below therefore take the wall
clock `now` (nanoseconds since epoch) as an explicit parameter,
standing for the moment the request executes.

The output sink (`io.Writer`) is modelled as the list of strings
written to it, in order; `res`/`errRes` of `src/rql/driver.go` each
perform exactly one write of `msg + "\n"`.
-/

/-- Two to the sixty-fourth, the modulus of Go `uint` arithmetic. -/
def uint64Mod : Nat := 18446744073709551616

/-- Reinterpret a `uint` (already reduced mod 2^64) as a Go `int64`,
as the cast `time.Duration(·)` does. -/
def toInt64 (n : Nat) : Int :=
  if n < 9223372036854775808 then (n : Int) else (n : Int) - (uint64Mod : Int)

/-- Function `convertToDuration` from `src/rql/driver.go` lines 119–121: the
`uint` argument (documented as milliseconds) is multiplied by 1000 and
cast to `time.Duration`, i.e. to a count of nanoseconds. -/
def convertToDuration (t : Nat) : Int :=
  toInt64 (t % uint64Mod * 1000 % uint64Mod)

/-- How Go `fmt.Sprintf("%v", x)` renders one `interface{}` element of
the driver's response slice: a string prints verbatim, a nil interface
prints `<nil>`. -/
def GoValue.render : GoValue → String
  | GoValue.str s => s
  | GoValue.nil => "<nil>"

/-- Function `stringify` from `src/rql/driver.go`: `fmt.Sprintf("%v", res)` on a
`[]interface{}` renders as the space-separated elements in square
brackets (the empty or nil slice renders as `[]`). -/
def stringify (res : List GoValue) : String :=
  "[" ++ String.intercalate " " (res.map GoValue.render) ++ "]"

/-- The response slice built by `Driver.get` of `src/rql/driver.go`
lines 75–88: for each key in request order, the found value, or a
literal `nil` placed in the slice for a key that does not exist. -/
def getResponseList (db : SecureDB) (now : Nat) (keys : List String) : List GoValue :=
  keys.map (fun key =>
    match db.Get key now with
    | some val => val
    | none => GoValue.nil)

/-- Method `Driver.get` of `src/rql/driver.go`: the stringified response
slice. -/
def Driver.get (db : SecureDB) (now : Nat) (keys : List String) : String :=
  stringify (getResponseList db now keys)

/-- Method `Driver.get` of the earlier driver, `src/unnamed/part_001` lines
62–73: keys reported not-found are skipped, everything else is
appended, then stringified. -/
def DriverOld.get (db : SecureDB) (now : Nat) (keys : List String) : String :=
  stringify (keys.filterMap (fun key => db.Get key now))

/-- Method `Driver.set` of `src/rql/driver.go` lines 63–67: write through the
session with `convertToDuration stmt.exp`, answer `Success`. -/
def Driver.set (db : SecureDB) (now : Nat) (key val : String) (exp : Nat) : SecureDB × String :=
  (db.Set key (GoValue.str val) (convertToDuration exp) now, "Success")

/-- Method `Driver.auth` of `src/rql/driver.go` lines 90–96. -/
def Driver.auth (db : SecureDB) (username password : String) : SecureDB × String :=
  let (ok, db2) := db.Authenticate username password
  if ok then (db2, "Successfully authenticated") else (db2, "Invalid Credentials")

/-- One iteration of the statement loop of `Driver.Operate`
(`src/rql/driver.go` lines 49–58): the switch handles `SetType`,
`GetType` and `AuthType`; there is NO `DeleteType` case, so a Delete
statement falls through the switch — no store action, no write to the
sink. Returns the updated session and the strings written. -/
def execStmt (db : SecureDB) (now : Nat) : Statement → SecureDB × List String
  | Statement.set key val exp =>
    let (db2, msg) := Driver.set db now key val exp
    (db2, [msg ++ "\n"])
  | Statement.get keys => (db, [Driver.get db now keys ++ "\n"])
  | Statement.auth username password =>
    let (db2, msg) := Driver.auth db username password
    (db2, [msg ++ "\n"])
  | Statement.del _ => (db, [])

/-- The statement loop of `Driver.Operate`, threading the session state
and concatenating the writes. -/
def execStatements (db : SecureDB) (now : Nat) : List Statement → SecureDB × List String
  | [] => (db, [])
  | stmt :: rest =>
    let (db2, out) := execStmt db now stmt
    let (db3, outs) := execStatements db2 now rest
    (db3, out ++ outs)

/-- Method `Driver.Operate` from `src/rql/driver.go` lines 38–59: parse the
source; on error write exactly one `ERROR: <message>` line and stop;
otherwise execute each parsed statement in order. -/
def Operate (src : String) (db : SecureDB) (now : Nat) : SecureDB × List String :=
  match Parse src with
  | Except.error e => (db, ["ERROR: " ++ e ++ "\n"])
  | Except.ok ast => execStatements db now ast.Statements

/-!
## Concrete states for evaluation
-/

/-- A concrete stored item that never expires. -/
def dataItem : Item :=
  { expireAt := NeverExpire, data := GoValue.str "v" }

/-- A concrete session whose data store holds exactly the key `data`
(mapped to `dataItem`) and whose user store registers `admin`/`secret`. -/
def sampleDB : SecureDB :=
  { store :=
      { items := fun k => if k = "data" then some dataItem else none,
        defaultExpiry := NeverExpire },
    checkCred := fun u p => u = "admin" && p = "secret",
    authenticated := false }

/-!
## Helper lemmas
-/

/-- When every requested key is reported found, the response slice of
the current driver's `get` (absent slots filled with `nil`) coincides
with the response slice of the earlier driver's `get` (absent keys
skipped). -/
theorem getResponseList_eq_filterMap (db : SecureDB) (now : Nat) :
    ∀ keys : List String, (∀ k, k ∈ keys → (db.Get k now).isSome = true) →
      getResponseList db now keys = keys.filterMap (fun key => db.Get key now) := by
  intro keys
  induction keys with
  | nil => intro _; rfl
  | cons k ks ih =>
    intro h
    have hk : (db.Get k now).isSome = true := h k (List.mem_cons_self k ks)
    obtain ⟨v, hv⟩ := Option.isSome_iff_exists.mp hk
    have hrest := ih (fun x hx => h x (List.mem_cons_of_mem _ hx))
    simp [getResponseList, List.filterMap_cons, hv] at hrest ⊢
    exact hrest

/-!
## Claims
-/

/-- C1: the claim says a Delete statement removes its keys and emits
exactly one response line; in `src/rql/driver.go` the switch of
`Driver.Operate` has no `DeleteType` case, so the request `DEL data;`
executed against a session holding `data` leaves the key untouched and
writes nothing to the sink. -/
theorem del_statement_no_line_no_removal :
    (Operate "DEL data;" sampleDB 0).2 = [] ∧
    (Operate "DEL data;" sampleDB 0).1.store.items "data" = some dataItem :=
  ⟨rfl, rfl⟩

/-- C2: the claim says an item set with finite TTL `t` is absent at
time `2t` after the set; in `src/db/item.go` the expiry instant is
stored in nanoseconds (`UnixNano`) but compared against the clock in
seconds (`Unix`), so an item set at wall time 1.7e18 ns with TTL 10^9 ns
(1000 ms) is still found both at `t/2` and at `2t` after the set. -/
theorem finite_ttl_item_survives_double_ttl :
    (1000000000 : Int) ≠ NeverExpire ∧
    (Store.empty.set "k" (GoValue.str "v") 1000000000 1700000000000000000).get "k"
      (1700000000000000000 + 500000000) = some (GoValue.str "v") ∧
    (Store.empty.set "k" (GoValue.str "v") 1000000000 1700000000000000000).get "k"
      (1700000000000000000 + 2000000000) = some (GoValue.str "v") := by
  refine ⟨by decide, ?_, ?_⟩ <;>
    simp [Store.empty, Store.set, Store.get, newItem, Item.isExpired, NeverExpire]

/-- C3: the claim (and the function's own doc comment) says
`convertToDuration` turns its milliseconds argument into nanoseconds,
i.e. `t * 1000000`; the code multiplies by 1000, so for `t = 234` the
driver's set handler passes a 234000 ns (234 µs) duration to the
store, not 234 ms. -/
theorem convertToDuration_is_microseconds :
    convertToDuration 234 = 234000 ∧
    (234000 : Int) ≠ 234 * 1000000 ∧
    (Driver.set sampleDB 0 "k" "x" 234).1.store.items "k" =
      some { expireAt := 234000, data := GoValue.str "x" } := by
  refine ⟨by decide, by decide, ?_⟩
  simp [Driver.set, SecureDB.Set, Store.set, newItem, NeverExpire,
    convertToDuration, toInt64, uint64Mod]

/-- C4: for a Get statement with at least one key, the response slice
has exactly one slot per requested key, positionally aligned in request
order, an absent key's slot holding the explicit `nil` marker, and the
driver renders the slice as a single newline-terminated line. -/
theorem get_response_positional (db : SecureDB) (now : Nat) (keys : List String)
    (h : 1 ≤ keys.length) :
    (getResponseList db now keys).length = keys.length ∧
    (∀ (i : Nat) (k : String), keys[i]? = some k →
      (getResponseList db now keys)[i]? =
        some (match db.Get k now with
              | some val => val
              | none => GoValue.nil)) ∧
    execStmt db now (Statement.get keys) =
      (db, [stringify (getResponseList db now keys) ++ "\n"]) := by
  refine ⟨by simp [getResponseList], ?_, rfl⟩
  intro i k hk
  simp [getResponseList, List.getElem?_map, hk]

/-- Witness for C4 at `keys = ["data", "missing"]` on `sampleDB`. -/
theorem get_response_positional_witness :
    (getResponseList sampleDB 0 ["data", "missing"]).length =
      (["data", "missing"] : List String).length ∧
    (∀ (i : Nat) (k : String), (["data", "missing"] : List String)[i]? = some k →
      (getResponseList sampleDB 0 ["data", "missing"])[i]? =
        some (match sampleDB.Get k 0 with
              | some val => val
              | none => GoValue.nil)) ∧
    execStmt sampleDB 0 (Statement.get ["data", "missing"]) =
      (sampleDB, [stringify (getResponseList sampleDB 0 ["data", "missing"]) ++ "\n"]) :=
  get_response_positional sampleDB 0 ["data", "missing"] (by decide)

/-- C5: when `Parse` fails, `Driver.Operate` writes exactly one
newline-terminated `ERROR: <message>` line, executes no statement, and
the session (store included) is returned unchanged. -/
theorem parse_error_single_error_line (src : String) (db : SecureDB) (now : Nat) (msg : String)
    (h : Parse src = Except.error msg) :
    Operate src db now = (db, ["ERROR: " ++ msg ++ "\n"]) := by
  unfold Operate
  rw [h]

/-- Witness for C5 on the malformed request `GET;` (empty key list). -/
theorem parse_error_single_error_line_witness :
    Operate "GET;" sampleDB 0 =
      (sampleDB, ["ERROR: " ++ "expected at least one key after GET" ++ "\n"]) :=
  parse_error_single_error_line "GET;" sampleDB 0 "expected at least one key after GET" rfl

/-- C6: executing an Auth statement calls the session's `Authenticate`
with the statement's username and password and emits exactly one line,
`Successfully authenticated` on a true outcome and
`Invalid Credentials` on a false one. -/
theorem auth_statement_response (db : SecureDB) (now : Nat) (username password : String) :
    execStmt db now (Statement.auth username password) =
      ((db.Authenticate username password).2,
       [(if (db.Authenticate username password).1 then "Successfully authenticated"
         else "Invalid Credentials") ++ "\n"]) := by
  unfold execStmt Driver.auth SecureDB.Authenticate
  by_cases h : db.checkCred username password <;> simp [h]

/-- C7: parsing `SET data "Hello World" 234; SET data1 3454 565;`
yields exactly the two Set statements of the parser test, in source
order, the second taking the bare token `3454` as its string value and
565 as its TTL. -/
theorem parse_multi_set_statements :
    Parse "SET data \"Hello World\" 234; SET data1 3454 565;" =
      Except.ok { Statements := [Statement.set "data" "Hello World" 234,
                                 Statement.set "data1" "3454" 565] } := by
  rfl

/-- C8: a source that lexes to no tokens besides end-of-input parses to
the empty statement sequence (not an error), and `Driver.Operate`
writes nothing to the sink and leaves the session unchanged. -/
theorem empty_request_zero_lines (src : String) (db : SecureDB) (now : Nat)
    (h : lex src = Except.ok []) :
    Parse src = Except.ok { Statements := [] } ∧ Operate src db now = (db, []) := by
  have hp : Parse src = Except.ok { Statements := [] } := by
    unfold Parse
    rw [h]
    rfl
  refine ⟨hp, ?_⟩
  unfold Operate
  rw [hp]
  rfl

/-- Witness for C8 on whitespace-only source. -/
theorem empty_request_zero_lines_witness :
    Parse " \n " = Except.ok { Statements := [] } ∧
    Operate " \n " sampleDB 0 = (sampleDB, []) :=
  empty_request_zero_lines " \n " sampleDB 0 rfl

/-- C9: an item created with the never-expire sentinel TTL is never
reported expired, and a key set with that TTL is still found by `get`
at every later (indeed, every) instant. -/
theorem never_expire_item_always_found (d : GoValue) (now now2 : Nat)
    (s : Store) (k : String) (v : GoValue) :
    (newItem d NeverExpire now).isExpired now2 = false ∧
    (s.set k v NeverExpire now).get k now2 = some v := by
  constructor
  · simp [newItem, Item.isExpired]
  · simp [Store.set, Store.get, newItem, Item.isExpired]

/-- C10: on a Get statement all of whose keys are found, the current
driver's `get` renderer (`src/rql/driver.go`) and the earlier driver's
`get` renderer (`src/unnamed/part_001`) return equal strings. -/
theorem get_renderers_agree (db : SecureDB) (now : Nat) (keys : List String)
    (h : ∀ k, k ∈ keys → (db.Get k now).isSome = true) :
    Driver.get db now keys = DriverOld.get db now keys := by
  unfold Driver.get DriverOld.get
  rw [getResponseList_eq_filterMap db now keys h]

/-- Witness for C10 on `sampleDB`, whose key `data` is present. -/
theorem get_renderers_agree_witness :
    Driver.get sampleDB 0 ["data"] = DriverOld.get sampleDB 0 ["data"] :=
  get_renderers_agree sampleDB 0 ["data"] (by decide)
